import Mathlib

/-!
Shallow embedding of the tool-augmented generation core of the course-material
RAG chatbot backend: `backend/search_tools.py` (the `Tool` interface,
`CourseSearchTool` and `ToolManager`) and `backend/ai_generator.py`
(`AIGenerator`, its deterministic mock path, `generate_response` and
`_handle_tool_execution`).

Python `Optional` values become `Option`; Python truthiness on optional
strings and integers is made explicit (`optStrTruthy`, `optIntTruthy`);
Python exceptions become `Except String` values; the mutable `last_sources`
field and the registry dictionary are threaded as explicit state.  The
`random.sample` call inside the demonstration-mode helper is modelled as an
oracle function supplied by the environment.  Model calls are modelled as a
pure function from request parameters to a response, and the orchestrator
definitions additionally return the list of outbound requests they issue, so
that call-count and call-shape properties can be stated.
-/

/-- Python substring membership `pat in s`, on the character lists of the two
strings (the empty pattern is a member of every string, as in Python). -/
def pyInAux (pat : List Char) : List Char → Bool
  | [] => pat.isEmpty
  | c :: rest => pat.isPrefixOf (c :: rest) || pyInAux pat rest

/-- Python `pat in s` for strings. -/
def pyIn (pat s : String) : Bool :=
  pyInAux pat.toList s.toList

/-- Number of (possibly overlapping) occurrences of `pat` in `s`, used to
state properties such as "contains five lesson headings". -/
def countOccAux (pat : List Char) : List Char → Nat
  | [] => 0
  | c :: rest => (if pat.isPrefixOf (c :: rest) then 1 else 0) + countOccAux pat rest

/-- Occurrence count of a nonempty pattern in a string. -/
def countOcc (pat s : String) : Nat :=
  countOccAux pat.toList s.toList

/-- Python `s.lower()` on the character list of the string (the queries and
keywords of this system are ASCII, where the two agree). -/
def strLower (s : String) : String :=
  ⟨s.data.map Char.toLower⟩

/-- Python truthiness of an optional string: `None` and `""` are falsy. -/
def optStrTruthy : Option String → Bool
  | none => false
  | some s => !s.isEmpty

/-- Python truthiness of an optional integer: `None` and `0` are falsy. -/
def optIntTruthy : Option Int → Bool
  | none => false
  | some n => n != 0

/-- A source record surfaced to the UI: a dictionary with a `text` label and
an optional `url`, as built by `CourseSearchTool._format_results` and the
mock helpers. -/
structure SourceData where
  text : String
  url : Option String
deriving DecidableEq, Repr

/-- One metadata entry of a search hit, per the retrieval collaborator
contract: a dictionary that may carry `course_title` and `lesson_number`.
`none` models an absent key (`meta.get(...)` then yields the default). -/
structure SearchMeta where
  course_title : Option String
  lesson_number : Option Int
deriving DecidableEq, Repr

/-- The collaborator result `SearchResults`: parallel `documents` and
`metadata` lists plus an optional `error` string. -/
structure SearchResults where
  documents : List String
  metadata : List SearchMeta
  error : Option String
deriving DecidableEq, Repr

/-- Modelled from the spec: `SearchResults.is_empty` lives in the
out-of-scope vector-store module; per the retrieval collaborator contract an
empty result set is one with no documents. -/
def SearchResults.is_empty (r : SearchResults) : Bool :=
  r.documents.isEmpty

/-- The external vector store, abstracted to the two methods the core calls:
`search` and `get_lesson_link`. -/
structure VectorStore where
  search : String → Option String → Option Int → SearchResults
  get_lesson_link : String → Int → Option String

/-- `CourseSearchTool` state: the store it delegates to and the mutable
`last_sources` field (initialised to `[]` in `__init__`). -/
structure CourseSearchTool where
  store : VectorStore
  last_sources : List SourceData

/-- The `mock_sources` list set in `CourseSearchTool.__init__` (used by the
manager only as a capability marker). -/
def courseSearchMockSources : List String :=
  ["MCP Course - Lesson 1: Introduction",
   "MCP Course - Lesson 5: Deployment",
   "Advanced Retrieval Course - Module 2",
   "Anthropic API Documentation"]

/-- The ` - Lesson n` suffix appended to headers and source labels when a
lesson number is present (`lesson_num is not None` in the source). -/
def lessonSuffix : Option Int → String
  | some n => " - Lesson " ++ toString n
  | none => ""

/-- The context header built by `_format_results`: the course title and the
optional lesson suffix in square brackets; a missing title defaults to
`unknown`. -/
def formatHeader (meta : SearchMeta) : String :=
  "[" ++ meta.course_title.getD "unknown" ++ lessonSuffix meta.lesson_number ++ "]"

/-- The UI source record built by `_format_results` for one hit: the label
mirrors the header without brackets; the url is looked up only when a lesson
number is present and the title is known, and kept only when truthy. -/
def sourceFor (store : VectorStore) (meta : SearchMeta) : SourceData :=
  let course_title := meta.course_title.getD "unknown"
  let source_text := course_title ++ lessonSuffix meta.lesson_number
  let url : Option String :=
    match meta.lesson_number with
    | some n =>
      if course_title != "unknown" then
        match store.get_lesson_link course_title n with
        | some link => if link.isEmpty then none else some link
        | none => none
      else none
    | none => none
  ⟨source_text, url⟩

/-- One iteration of the `for doc, meta in zip(...)` loop of
`_format_results`: append the formatted block and the source record. -/
def formatStep (store : VectorStore) (acc : List String × List SourceData)
    (p : String × SearchMeta) : List String × List SourceData :=
  (acc.1 ++ [formatHeader p.2 ++ "\n" ++ p.1], acc.2 ++ [sourceFor store p.2])

/-- `CourseSearchTool._format_results`: format every hit, overwrite
`last_sources`, and join the blocks with a blank line. -/
def CourseSearchTool.format_results (t : CourseSearchTool) (results : SearchResults) :
    String × CourseSearchTool :=
  let fs := (results.documents.zip results.metadata).foldl (formatStep t.store) ([], [])
  (String.intercalate "\n\n" fs.1, { t with last_sources := fs.2 })

/-- `CourseSearchTool.execute`: delegate to the store, return the error
string verbatim when the error field is truthy, a filter-describing message
when the result set is empty (note the truthiness tests on the filters), and
otherwise the formatted results.  Returns the result text together with the
post-state of the tool. -/
def CourseSearchTool.execute (t : CourseSearchTool) (query : String)
    (course_name : Option String) (lesson_number : Option Int) :
    String × CourseSearchTool :=
  let results := t.store.search query course_name lesson_number
  if optStrTruthy results.error then
    (results.error.getD "", t)
  else if results.is_empty then
    let filter_info :=
      (if optStrTruthy course_name then
        " in course \x27" ++ course_name.getD "" ++ "\x27" else "") ++
      (if optIntTruthy lesson_number then
        " in lesson " ++ toString (lesson_number.getD 0) else "")
    ("No relevant content found" ++ filter_info ++ ".", t)
  else
    t.format_results results

/-- The `mock_sources_data` literal inside `CourseSearchTool.execute_mock`. -/
def mockSourcesData : List SourceData :=
  [⟨"MCP Course - Lesson 1: Introduction", some "https://example.com/mcp-lesson-1"⟩,
   ⟨"MCP Course - Lesson 5: Deployment", some "https://example.com/mcp-lesson-5"⟩,
   ⟨"Advanced Retrieval Course - Module 2", none⟩,
   ⟨"Anthropic API Documentation", none⟩]

/-- The first canned text of `execute_mock` (outline query about MCP). -/
def mcpOutlineFoundText : String :=
  "**MCP Course Outline Found:**\n" ++
  "            \n" ++
  "Lesson 1: Introduction to MCP\n" ++
  "- Model Context Protocol overview\n" ++
  "- Development environment setup\n" ++
  "- Core concepts\n" ++
  "\n" ++
  "Lesson 5: Deployment and Scaling  \n" ++
  "- Production deployment strategies\n" ++
  "- Performance optimization\n" ++
  "- Monitoring and maintenance"

/-- The second canned text of `execute_mock` (lesson-5 query). -/
def lesson5MockText : String :=
  "**Lesson 5: Deployment and Scaling**\n" ++
  "            \n" ++
  "This lesson covers:\n" ++
  "- Production deployment strategies for MCP applications\n" ++
  "- Performance optimization techniques\n" ++
  "- Monitoring and maintenance best practices\n" ++
  "- Enterprise scaling considerations"

/-- The fallback canned text of `execute_mock`, an f-string over the query. -/
def mockSearchResultsText (query : String) : String :=
  "**Mock Search Results for: " ++ query ++ "**\n" ++
  "            \n" ++
  "Found relevant information about course materials. This is demonstration mode - \n" ++
  "the system would normally search through actual course content to provide \n" ++
  "specific answers about lessons, outlines, and course materials."

/-- `CourseSearchTool.execute_mock`: sets `last_sources` to a sample of two
of the `mock_sources_data` entries (`random.sample(..., 2)` is modelled by
the oracle `sample`) and returns one of three canned texts chosen from the
query and the filters, with Python truthiness on `course_name`. -/
def CourseSearchTool.execute_mock (t : CourseSearchTool)
    (sample : List SourceData → List SourceData) (query : String)
    (course_name : Option String) (lesson_number : Option Int) :
    String × CourseSearchTool :=
  let t := { t with last_sources := sample mockSourcesData }
  if pyIn "outline" (strLower query) && optStrTruthy course_name
      && pyIn "mcp" (strLower (course_name.getD "")) then
    (mcpOutlineFoundText, t)
  else if pyIn "lesson" (strLower query) && lesson_number == some 5 then
    (lesson5MockText, t)
  else
    (mockSearchResultsText query, t)

/-- One property of a tool-declaration `input_schema`. -/
structure ParamSpec where
  type : String
  description : String
deriving DecidableEq, Repr

/-- The `input_schema` object of a tool declaration. -/
structure InputSchema where
  type : String
  properties : List (String × ParamSpec)
  required : List String
deriving DecidableEq, Repr

/-- A tool declaration dictionary; every key is optional because
`register_tool` reads it with `dict.get`. -/
structure ToolDef where
  name : Option String
  description : Option String
  input_schema : Option InputSchema
deriving DecidableEq, Repr

/-- `CourseSearchTool.get_tool_definition`. -/
def courseSearchToolDef : ToolDef where
  name := some "search_course_content"
  description := some "Search course materials with smart course name matching and lesson filtering"
  input_schema := some
    { type := "object"
      properties :=
        [("query", ⟨"string", "What to search for in the course content"⟩),
         ("course_name", ⟨"string", "Course title (partial matches work, e.g. \x27MCP\x27, \x27Introduction\x27)"⟩),
         ("lesson_number", ⟨"integer", "Specific lesson number to search within (e.g. 1, 2, 3)"⟩)]
      required := ["query"] }

/-- The keyword arguments the system passes through `execute_tool(**kwargs)`
to the tools of this repository; an absent field models an absent key. -/
structure Kwargs where
  query : Option String
  course_name : Option String
  lesson_number : Option Int
deriving DecidableEq, Repr

/-- A registered tool as the duck-typed registry sees it: its declaration,
its `execute` behaviour over its own `last_sources` state, the optional
`execute_mock` capability, the `mock_sources` capability marker, and the
current `last_sources` attribute (`none` models a tool without one).  An
execute function returns `Except`: `.error` models a raised exception. -/
structure MTool where
  tool_def : ToolDef
  executeFn : Option (List SourceData) → Kwargs →
    Except String (String × Option (List SourceData))
  executeMockFn : Option (Option (List SourceData) → Kwargs →
    Except String (String × Option (List SourceData)))
  has_mock_sources : Bool
  last_sources : Option (List SourceData)

/-- `tool.execute(**kwargs)` on a duck-typed tool: run the behaviour on the
current state and fold the new `last_sources` back into the tool. -/
def MTool.execute (t : MTool) (kwargs : Kwargs) : Except String (String × MTool) :=
  (t.executeFn t.last_sources kwargs).map (fun r => (r.1, { t with last_sources := r.2 }))

/-- `tool.execute_mock(**kwargs)` on a duck-typed tool that has the
capability (the function is taken from `executeMockFn`). -/
def MTool.execute_mock (t : MTool) (kwargs : Kwargs) : Except String (String × MTool) :=
  match t.executeMockFn with
  | some f => (f t.last_sources kwargs).map (fun r => (r.1, { t with last_sources := r.2 }))
  | none => .error "AttributeError: \x27execute_mock\x27"

/-- A `CourseSearchTool` wrapped as the registry sees it.  A call without
the required `query` keyword raises, as in Python; the `sample` oracle
stands for `random.sample` inside `execute_mock`. -/
def courseSearchMTool (store : VectorStore)
    (sample : List SourceData → List SourceData)
    (last_sources : List SourceData) : MTool where
  tool_def := courseSearchToolDef
  executeFn := fun ls k =>
    match k.query with
    | none => .error "TypeError: execute() missing 1 required positional argument: \x27query\x27"
    | some q =>
      let r := CourseSearchTool.execute ⟨store, ls.getD []⟩ q k.course_name k.lesson_number
      .ok (r.1, some r.2.last_sources)
  executeMockFn := some (fun ls k =>
    match k.query with
    | none => .error "TypeError: execute_mock() missing 1 required positional argument: \x27query\x27"
    | some q =>
      let r := CourseSearchTool.execute_mock ⟨store, ls.getD []⟩ sample q k.course_name k.lesson_number
      .ok (r.1, some r.2.last_sources))
  has_mock_sources := true
  last_sources := some last_sources

/-- Insertion into a Python dict modelled as an ordered association list:
an existing key keeps its position, a new key is appended. -/
def dictInsert (k : String) (v : MTool) : List (String × MTool) → List (String × MTool)
  | [] => [(k, v)]
  | (k0, v0) :: rest =>
    if k0 = k then (k0, v) :: rest else (k0, v0) :: dictInsert k v rest

/-- Lookup in the ordered association list modelling the tools dict. -/
def dictLookup (k : String) : List (String × MTool) → Option MTool
  | [] => none
  | (k0, v0) :: rest => if k0 = k then some v0 else dictLookup k rest

/-- `ToolManager` state: the insertion-ordered tools dict and the
`mock_mode` flag. -/
structure ToolManager where
  tools : List (String × MTool)
  mock_mode : Bool

/-- `ToolManager.register_tool`: read the declaration, raise (second
component) when the name is missing or empty — before any mutation — and
otherwise store the tool under its name. -/
def ToolManager.register_tool (m : ToolManager) (tool : MTool) :
    ToolManager × Option String :=
  let tool_name := tool.tool_def.name
  if !optStrTruthy tool_name then
    (m, some "Tool must have a \x27name\x27 in its definition")
  else
    ({ m with tools := dictInsert (tool_name.getD "") tool m.tools }, none)

/-- `ToolManager.get_tool_definitions`: declarations in registration order. -/
def ToolManager.get_tool_definitions (m : ToolManager) : List ToolDef :=
  m.tools.map (fun p => p.2.tool_def)

/-- The loop body of `_execute_mock_search`: set `last_sources` of the first
tool exposing `mock_sources` to the first two sample entries, then break. -/
def setFirstMockSources (src : List SourceData) :
    List (String × MTool) → List (String × MTool)
  | [] => []
  | (n, t) :: rest =>
    if t.has_mock_sources then (n, { t with last_sources := some src }) :: rest
    else (n, t) :: setFirstMockSources src rest

/-- The `mock_sources_data` literal of `ToolManager._execute_mock_search`. -/
def managerMockSourcesData : List SourceData :=
  [⟨"MCP Course - Lesson 1: Introduction", some "https://learn.deeplearning.ai/courses/mcp/lesson/1/introduction"⟩,
   ⟨"MCP Course - Lesson 5: Deployment", some "https://learn.deeplearning.ai/courses/mcp/lesson/5/deployment"⟩,
   ⟨"Advanced Retrieval Course - Module 2", some "https://learn.deeplearning.ai/courses/advanced-retrieval/lesson/2"⟩,
   ⟨"Anthropic API Documentation", some "https://docs.anthropic.com/api/overview"⟩]

/-- `ToolManager._execute_mock_search`: populate the first mock-capable
tool with the first two mock sources and report completion. -/
def ToolManager.execute_mock_search (m : ToolManager) (kwargs : Kwargs) :
    String × ToolManager :=
  let query := kwargs.query.getD "general query"
  ("Mock search completed for: " ++ query,
   { m with tools := setFirstMockSources (managerMockSourcesData.take 2) m.tools })

/-- `ToolManager.execute_tool`: unregistered names yield the mock-search
path (in mock mode, for the name `search_courses`) or a content-level
not-found string; registered tools are dispatched to `execute_mock` in mock
mode when they expose it, else to `execute`.  The `.error` case of the first
component models an exception raised by the tool and propagated (there is no
handler in `execute_tool`); the second component is the post-state. -/
def ToolManager.execute_tool (m : ToolManager) (tool_name : String) (kwargs : Kwargs) :
    Except String String × ToolManager :=
  match dictLookup tool_name m.tools with
  | none =>
    if m.mock_mode && tool_name = "search_courses" then
      let r := m.execute_mock_search kwargs
      (.ok r.1, r.2)
    else
      (.ok ("Tool \x27" ++ tool_name ++ "\x27 not found"), m)
  | some tool =>
    if m.mock_mode && tool.executeMockFn.isSome then
      match tool.execute_mock kwargs with
      | .error e => (.error e, m)
      | .ok r => (.ok r.1, { m with tools := dictInsert tool_name r.2 m.tools })
    else
      match tool.execute kwargs with
      | .error e => (.error e, m)
      | .ok r => (.ok r.1, { m with tools := dictInsert tool_name r.2 m.tools })

/-- The scan of `ToolManager.get_last_sources`: first tool whose
`last_sources` attribute exists and is truthy (a nonempty list). -/
def firstTruthySources : List (String × MTool) → List SourceData
  | [] => []
  | (_, t) :: rest =>
    match t.last_sources with
    | some (s :: ss) => s :: ss
    | _ => firstTruthySources rest

/-- `ToolManager.get_last_sources`. -/
def ToolManager.get_last_sources (m : ToolManager) : List SourceData :=
  firstTruthySources m.tools

/-- The loop body of `ToolManager.reset_sources`: set `last_sources = []`
when the tool has the attribute, leave it alone otherwise. -/
def resetEntry (p : String × MTool) : String × MTool :=
  match p.2.last_sources with
  | some _ => (p.1, { p.2 with last_sources := some [] })
  | none => p

/-- `ToolManager.reset_sources`: reset every tool that has the attribute. -/
def ToolManager.reset_sources (m : ToolManager) : ToolManager :=
  { m with tools := m.tools.map resetEntry }

/-- `AIGenerator.SYSTEM_PROMPT`. -/
def SYSTEM_PROMPT : String :=
  " You are an AI assistant specialized in course materials and educational content with access to a comprehensive search tool for course information.\n" ++
  "\n" ++
  "Search Tool Usage:\n" ++
  "- Use the search tool **only** for questions about specific course content or detailed educational materials\n" ++
  "- **One search per query maximum**\n" ++
  "- Synthesize search results into accurate, fact-based responses\n" ++
  "- If search yields no results, state this clearly without offering alternatives\n" ++
  "\n" ++
  "Response Protocol:\n" ++
  "- **General knowledge questions**: Answer using existing knowledge without searching\n" ++
  "- **Course-specific questions**: Search first, then answer\n" ++
  "- **No meta-commentary**:\n" ++
  " - Provide direct answers only — no reasoning process, search explanations, or question-type analysis\n" ++
  " - Do not mention \"based on the search results\"\n" ++
  "\n" ++
  "\n" ++
  "All responses must be:\n" ++
  "1. **Brief, Concise and focused** - Get to the point quickly\n" ++
  "2. **Educational** - Maintain instructional value\n" ++
  "3. **Clear** - Use accessible language\n" ++
  "4. **Example-supported** - Include relevant examples when they aid understanding\n" ++
  "Provide only the direct answer to what was asked.\n"

/-- `mock_responses["outline"]["MCP"]`: the product-specific outline. -/
def mockOutlineMCP : String :=
  "# MCP: Build Rich-Context AI Apps with Anthropic Course Outline\n" ++
  "\n" ++
  "## Lesson 1: Introduction to MCP\n" ++
  "- Overview of Model Context Protocol\n" ++
  "- Setting up the development environment\n" ++
  "- Key concepts and terminology\n" ++
  "\n" ++
  "## Lesson 2: Basic MCP Implementation\n" ++
  "- Creating your first MCP server\n" ++
  "- Understanding client-server architecture\n" ++
  "- Basic communication patterns\n" ++
  "\n" ++
  "## Lesson 3: Advanced Features\n" ++
  "- Tool integration and custom functions\n" ++
  "- Resource management and optimization\n" ++
  "- Error handling and debugging\n" ++
  "\n" ++
  "## Lesson 4: Building Real Applications\n" ++
  "- Practical implementation examples\n" ++
  "- Integration with existing systems\n" ++
  "- Best practices and patterns\n" ++
  "\n" ++
  "## Lesson 5: Deployment and Scaling\n" ++
  "- Production deployment strategies\n" ++
  "- Performance optimization\n" ++
  "- Monitoring and maintenance"

/-- `mock_responses["outline"]["default"]`: the generic module outline. -/
def mockOutlineDefault : String :=
  "# Course Outline\n" ++
  "\n" ++
  "## Module 1: Foundations\n" ++
  "- Core concepts and terminology\n" ++
  "- Setting up the environment\n" ++
  "- Basic implementation patterns\n" ++
  "\n" ++
  "## Module 2: Implementation\n" ++
  "- Hands-on development\n" ++
  "- Key features and capabilities\n" ++
  "- Integration techniques\n" ++
  "\n" ++
  "## Module 3: Advanced Topics\n" ++
  "- Optimization strategies\n" ++
  "- Complex scenarios and solutions\n" ++
  "- Best practices\n" ++
  "\n" ++
  "## Module 4: Real-World Applications\n" ++
  "- Case studies and examples\n" ++
  "- Production considerations\n" ++
  "- Troubleshooting and maintenance"

/-- `mock_responses["chatbot"]`. -/
def mockResponseChatbot : String :=
  "Yes, several courses include chatbot implementations. The \x27MCP: Build Rich-Context AI Apps with Anthropic\x27 course covers building AI applications that can serve as intelligent chatbots. The course teaches how to create context-aware conversational systems using Anthropic\x27s tools and the Model Context Protocol."

/-- `mock_responses["rag"]`. -/
def mockResponseRag : String :=
  "RAG (Retrieval-Augmented Generation) is explained in the \x27Advanced Retrieval for AI with Chroma\x27 course. RAG combines information retrieval with language generation to provide more accurate and contextual responses by first retrieving relevant information from a knowledge base, then using that information to generate informed answers."

/-- `mock_responses["lesson"]`. -/
def mockResponseLesson : String :=
  "Lesson 5 of the MCP course covers \x27Deployment and Scaling\x27. This lesson focuses on production deployment strategies, performance optimization techniques, and how to monitor and maintain MCP applications in real-world environments. Students learn about scaling considerations and best practices for enterprise deployment."

/-- `mock_responses["default"]`. -/
def mockResponseDefault : String :=
  "I\x27m a course materials assistant running in demonstration mode. I can help you with questions about course content, outlines, and educational materials. The system has information about courses covering topics like MCP (Model Context Protocol), RAG (Retrieval-Augmented Generation), Chroma database, and Anthropic\x27s AI tools."

/-- The non-outline entries of the `mock_responses` dict, keyed like it. -/
def mockResponsesFlat : List (String × String) :=
  [("chatbot", mockResponseChatbot),
   ("rag", mockResponseRag),
   ("lesson", mockResponseLesson),
   ("default", mockResponseDefault)]

/-- `self.query_patterns`, in dict insertion order. -/
def query_patterns : List (String × List String) :=
  [("outline", ["outline", "structure", "syllabus", "overview", "contents"]),
   ("chatbot", ["chatbot", "chat bot", "conversational", "bot"]),
   ("rag", ["rag", "retrieval", "augmented", "generation"]),
   ("lesson", ["lesson", "module", "chapter", "section"])]

/-- The keywords that trigger the simulated tool call in
`_generate_mock_response`. -/
def mockToolTriggerKeywords : List String :=
  ["course", "mcp", "rag", "chroma", "anthropic"]

/-- The pattern loop of `_generate_mock_response`: the lowercased query is
matched against the categories in table order, the first match wins; the
outline category picks the MCP variant when the query mentions mcp; no
match yields the default response.  (The `.getD` fallback is unreachable:
the found key is always present in the dict.) -/
def mockTextFor (query_lower : String) : String :=
  match query_patterns.find? (fun p => p.2.any (fun k => pyIn k query_lower)) with
  | some p =>
    if p.1 = "outline" then
      if pyIn "mcp" query_lower then mockOutlineMCP else mockOutlineDefault
    else
      ((mockResponsesFlat.lookup p.1).getD mockResponseDefault)
  | none => mockResponseDefault

/-- `AIGenerator._generate_mock_response`: lowercase the query; when a tool
manager is supplied and the query holds a domain keyword, best-effort invoke
`execute_tool("search_courses", query=query)` purely for its source side
effect, swallowing any exception; then return the pattern-matched canned
text.  Returns the text and the post-state of the optional manager. -/
def generate_mock_response (query : String) (tool_manager : Option ToolManager) :
    String × Option ToolManager :=
  let query_lower := strLower query
  let tm :=
    match tool_manager with
    | some m =>
      if mockToolTriggerKeywords.any (fun k => pyIn k query_lower) then
        match m.execute_tool "search_courses" ⟨some query, none, none⟩ with
        | (.ok _, m2) => some m2
        | (.error _, m2) => some m2
      else some m
    | none => none
  (mockTextFor query_lower, tm)

/-- A content block of a model response: a text block or a tool-use block
carrying the call id, tool name and arguments. -/
inductive ContentBlock where
  | text (text : String)
  | tool_use (id : String) (name : String) (input : Kwargs)
deriving DecidableEq, Repr

/-- A `tool_result` entry of the follow-up user message. -/
structure ToolResultBlock where
  tool_use_id : String
  content : String
deriving DecidableEq, Repr

/-- The content of a conversation message: a plain string (user query), the
verbatim content-block list of an assistant response, or a tool-result
list. -/
inductive MsgContent where
  | str (s : String)
  | blocks (bs : List ContentBlock)
  | toolResults (rs : List ToolResultBlock)
deriving DecidableEq, Repr

/-- A conversation message. -/
structure Message where
  role : String
  content : MsgContent
deriving DecidableEq, Repr

/-- A model response: stop reason and ordered content blocks. -/
structure ModelResponse where
  stop_reason : String
  content : List ContentBlock
deriving DecidableEq, Repr

/-- The parameters of one outbound model call (`api_params`): the base
parameters plus messages, system content and the optional tool fields
(`tool_choice` holds the `type` of the attached policy). -/
structure ApiParams where
  model : String
  temperature : Int
  max_tokens : Nat
  messages : List Message
  system : String
  tools : Option (List ToolDef)
  tool_choice : Option String
deriving DecidableEq, Repr

/-- `AIGenerator` configuration state (the client itself is passed to the
embedded functions as a pure function). -/
structure AIGenerator where
  mock_mode : Bool
  model : String

/-- `final_response.content[0].text`: the text of the first content block;
an empty list raises IndexError, a tool-use first block raises
AttributeError. -/
def firstBlockText (r : ModelResponse) : Except String String :=
  match r.content with
  | [] => .error "IndexError: list index out of range"
  | .text t :: _ => .ok t
  | .tool_use _ _ _ :: _ => .error "AttributeError: \x27ToolUseBlock\x27 object has no attribute \x27text\x27"

/-- The tool-execution loop of `_handle_tool_execution`: for each tool-use
block in order, call `tool_manager.execute_tool` (threading the manager
state) and append a `tool_result` with the block id; a raised exception
aborts the loop and propagates. -/
def collectToolResults (tm : ToolManager) :
    List ContentBlock → Except String (List ToolResultBlock × ToolManager)
  | [] => .ok ([], tm)
  | .text _ :: rest => collectToolResults tm rest
  | .tool_use id name input :: rest =>
    match tm.execute_tool name input with
    | (.error e, _) => .error e
    | (.ok s, tm2) =>
      match collectToolResults tm2 rest with
      | .error e => .error e
      | .ok (rs, tm3) => .ok (⟨id, s⟩ :: rs, tm3)

/-- `AIGenerator._handle_tool_execution`: copy the messages, append the
verbatim assistant response, run all tool calls, append the results as one
user message when any exist, and issue the follow-up call from the base
parameters — hence without tools and without a tool choice — reusing the
system content of the first call.  Returns the final text (or the propagated
exception) together with the list of model calls issued here. -/
def handle_tool_execution (client : ApiParams → ModelResponse) (base : AIGenerator)
    (initial_response : ModelResponse) (base_params : ApiParams) (tm : ToolManager) :
    Except String String × List ApiParams :=
  let messages := base_params.messages ++ [⟨"assistant", .blocks initial_response.content⟩]
  match collectToolResults tm initial_response.content with
  | .error e => (.error e, [])
  | .ok (tool_results, _) =>
    let messages :=
      if tool_results.isEmpty then messages
      else messages ++ [⟨"user", .toolResults tool_results⟩]
    let final_params : ApiParams :=
      ⟨base.model, 0, 800, messages, base_params.system, none, none⟩
    (firstBlockText (client final_params), [final_params])

/-- The `api_params` construction of `generate_response`: the base
parameters, the user message, the system content (with the history suffix
when the history string is truthy), and the tools plus the automatic tool
choice when the tools list is truthy. -/
def build_api_params (g : AIGenerator) (query : String)
    (conversation_history : Option String) (tools : Option (List ToolDef)) :
    ApiParams :=
  let system_content :=
    if optStrTruthy conversation_history then
      SYSTEM_PROMPT ++ "\n\nPrevious conversation:\n" ++ conversation_history.getD ""
    else SYSTEM_PROMPT
  let toolsTruthy := match tools with | some (_ :: _) => true | _ => false
  ⟨g.model, 0, 800, [⟨"user", .str query⟩], system_content,
   if toolsTruthy then tools else none,
   if toolsTruthy then some "auto" else none⟩

/-- `AIGenerator.generate_response`: the mock path returns the canned text
with no model call; otherwise issue the first call with the built
parameters and enter tool handling exactly when the stop reason is
`tool_use` and a manager was supplied.  Returns the final text (or raised
exception) and the list of model calls issued, in order. -/
def generate_response (g : AIGenerator) (client : ApiParams → ModelResponse)
    (query : String) (conversation_history : Option String)
    (tools : Option (List ToolDef)) (tool_manager : Option ToolManager) :
    Except String String × List ApiParams :=
  if g.mock_mode then
    (.ok (generate_mock_response query tool_manager).1, [])
  else
    let api_params := build_api_params g query conversation_history tools
    let response := client api_params
    match tool_manager with
    | some tm =>
      if response.stop_reason = "tool_use" then
        let r := handle_tool_execution client g response api_params tm
        (r.1, api_params :: r.2)
      else
        (firstBlockText response, [api_params])
    | none =>
      (firstBlockText response, [api_params])

/-! Specification-side definitions and concrete instances used to settle the
claims.  `specFormatHits` is written from the words of the specification (a
refinement target), not from the source; everything else below builds
concrete stores, tools, managers, responses and clients to evaluate the
embedded code on. -/

/-- Formatting of retrieval hits as the specification words it: each hit
`(text, course title, optional lesson)` becomes a header
`[<course title>` optionally ` - Lesson <n>` `]` followed on the next line
by the text, blocks joined by a blank line. -/
def specFormatHits (hits : List (String × String × Option Int)) : String :=
  String.intercalate "\n\n"
    (hits.map (fun h =>
      "[" ++ h.2.1 ++
        (match h.2.2 with
         | some n => " - Lesson " ++ toString n
         | none => "") ++ "]" ++ "\n" ++ h.1))

/-- The ids of the tool-use blocks of a response content list, in order. -/
def toolUseIds : List ContentBlock → List String
  | [] => []
  | .tool_use i _ _ :: rest => i :: toolUseIds rest
  | .text _ :: rest => toolUseIds rest

/-- A store whose search always reports an error. -/
def storeErr : VectorStore :=
  ⟨fun _ _ _ => ⟨[], [], some "boom"⟩, fun _ _ => none⟩

/-- A store whose search always returns an empty result set. -/
def storeEmpty : VectorStore :=
  ⟨fun _ _ _ => ⟨[], [], none⟩, fun _ _ => none⟩

/-- A store returning two hits for Course 1, the first with a lesson. -/
def storeHits : VectorStore :=
  ⟨fun _ _ _ =>
    ⟨["alpha text", "beta text"],
     [⟨some "Course 1", some 1⟩, ⟨some "Course 1", none⟩], none⟩,
   fun _ _ => some "https://example.com/l1"⟩

/-- A search tool over the empty store with no previous sources. -/
def csEmpty : CourseSearchTool := ⟨storeEmpty, []⟩

/-- A search tool over the empty store holding sources of a previous run. -/
def csPrev : CourseSearchTool := ⟨storeEmpty, [⟨"prev", none⟩]⟩

/-- A search tool over the two-hit store. -/
def csHits : CourseSearchTool := ⟨storeHits, []⟩

/-- A deterministic instance of the sampling oracle. -/
def sampleTake2 (l : List SourceData) : List SourceData := l.take 2

/-- A registered course-search tool over the erroring store. -/
def csMToolErr : MTool := courseSearchMTool storeErr sampleTake2 []

/-- A registry in mock mode holding the course-search tool. -/
def tmMock : ToolManager := ⟨[("search_course_content", csMToolErr)], true⟩

/-- The same registry in live (non-mock) mode. -/
def tmLive : ToolManager := ⟨[("search_course_content", csMToolErr)], false⟩

/-- An empty registry in mock mode. -/
def tmMockEmpty : ToolManager := ⟨[], true⟩

/-- A tool whose execute raises. -/
def raisingTool : MTool :=
  ⟨⟨some "boom_tool", none, none⟩, fun _ _ => .error "boom", none, false, none⟩

/-- A tool whose execute returns a fixed string and keeps its state. -/
def okTool : MTool :=
  ⟨⟨some "ok_tool", none, none⟩, fun ls _ => .ok ("fine", ls), none, false, none⟩

/-- A declaration-less tool, for the registration guard. -/
def noNameTool : MTool :=
  ⟨⟨none, none, none⟩, fun ls _ => .ok ("", ls), none, false, none⟩

/-- A registry holding only the raising tool. -/
def tmRaising : ToolManager := ⟨[("boom_tool", raisingTool)], false⟩

/-- A registry holding a well-behaved tool and the raising tool. -/
def tmOkRaise : ToolManager :=
  ⟨[("ok_tool", okTool), ("boom_tool", raisingTool)], false⟩

/-- A registry holding only the well-behaved tool. -/
def tmOk : ToolManager := ⟨[("ok_tool", okTool)], false⟩

/-- A registered tool currently holding a source record. -/
def csMToolS : MTool := courseSearchMTool storeEmpty sampleTake2 [⟨"old", none⟩]

/-- A registry whose tool holds a source record. -/
def tmS : ToolManager := ⟨[("search_course_content", csMToolS)], false⟩

/-- The tool of `tmS` after a reset. -/
def resetToolS : MTool := { csMToolS with last_sources := some [] }

/-- Keyword arguments carrying only a query. -/
def kwargsHello : Kwargs := ⟨some "hello", none, none⟩

/-- Keyword arguments carrying nothing. -/
def kwargsNone : Kwargs := ⟨none, none, none⟩

/-- A model response requesting one call of the raising tool. -/
def respToolUse : ModelResponse :=
  ⟨"tool_use", [.tool_use "toolu_01" "boom_tool" kwargsHello]⟩

/-- A model response whose second tool call hits the raising tool. -/
def respTwo : ModelResponse :=
  ⟨"tool_use",
   [.tool_use "t1" "ok_tool" kwargsHello, .tool_use "t2" "boom_tool" kwargsHello]⟩

/-- A model response with two good tool calls around a text block. -/
def respOkTwo : ModelResponse :=
  ⟨"tool_use",
   [.tool_use "t1" "ok_tool" kwargsHello, .text "thinking",
    .tool_use "t2" "ok_tool" kwargsHello]⟩

/-- A client that always ends the turn with a fixed answer. -/
def clientEnd : ApiParams → ModelResponse :=
  fun _ => ⟨"end_turn", [.text "final answer"]⟩

/-- A client that requests the search tool exactly when tools are attached. -/
def clientToolUse : ApiParams → ModelResponse :=
  fun p =>
    if p.tools.isSome then
      ⟨"tool_use", [.tool_use "t1" "search_course_content" kwargsHello]⟩
    else ⟨"end_turn", [.text "done"]⟩

/-- A live-mode generator. -/
def genLive : AIGenerator := ⟨false, "claude"⟩

/-- A mock-mode generator. -/
def genMock : AIGenerator := ⟨true, "claude"⟩

/-- Base parameters of a first call already made. -/
def apBase : ApiParams :=
  ⟨"claude", 0, 800, [⟨"user", .str "hi"⟩], SYSTEM_PROMPT, none, none⟩

/-- The first call issued in the two-call scenario. -/
def c4p1 : ApiParams :=
  ⟨"claude", 0, 800, [⟨"user", .str "hi"⟩], SYSTEM_PROMPT,
   some [courseSearchToolDef], some "auto"⟩

/-- The follow-up call issued in the two-call scenario. -/
def c4p2 : ApiParams :=
  ⟨"claude", 0, 800,
   [⟨"user", .str "hi"⟩,
    ⟨"assistant", .blocks [.tool_use "t1" "search_course_content" kwargsHello]⟩,
    ⟨"user", .toolResults [⟨"t1", "boom"⟩]⟩],
   SYSTEM_PROMPT, none, none⟩

/-- The formatting loop accumulates exactly the mapped header blocks and the
mapped source records, in hit order. -/
theorem formatStep_foldl (store : VectorStore) (pairs : List (String × SearchMeta))
    (a : List String) (b : List SourceData) :
    pairs.foldl (formatStep store) (a, b) =
      (a ++ pairs.map (fun p => formatHeader p.2 ++ "\n" ++ p.1),
       b ++ pairs.map (fun p => sourceFor store p.2)) := by
  induction pairs generalizing a b with
  | nil => simp
  | cons p rest ih =>
    simp only [List.foldl_cons, List.map_cons, formatStep, ih]
    simp

/-- The sources stored by `_format_results` are the per-hit source records
in hit order. -/
theorem format_results_sources (t : CourseSearchTool) (results : SearchResults) :
    (t.format_results results).2.last_sources =
      (results.documents.zip results.metadata).map (fun p => sourceFor t.store p.2) := by
  unfold CourseSearchTool.format_results
  rw [formatStep_foldl]
  simp

/-- One formatted block agrees with the block the specification describes. -/
theorem format_block_eq (p : String × SearchMeta) :
    formatHeader p.2 ++ "\n" ++ p.1 =
      "[" ++ p.2.course_title.getD "unknown" ++
        (match p.2.lesson_number with
         | some n => " - Lesson " ++ toString n
         | none => "") ++ "]" ++ "\n" ++ p.1 := by
  cases h : p.2.lesson_number <;> simp [formatHeader, lessonSuffix, h]

/-- The text built by `_format_results` refines the formatting clause of the
specification. -/
theorem format_results_text (t : CourseSearchTool) (results : SearchResults) :
    (t.format_results results).1 =
      specFormatHits ((results.documents.zip results.metadata).map
        (fun p => (p.1, p.2.course_title.getD "unknown", p.2.lesson_number))) := by
  unfold CourseSearchTool.format_results specFormatHits
  rw [formatStep_foldl]
  simp only [List.nil_append, List.map_map]
  congr 1

/-- After mapping the reset over any tool list, the first-truthy scan of
`get_last_sources` finds nothing. -/
theorem firstTruthySources_reset (l : List (String × MTool)) :
    firstTruthySources (l.map resetEntry) = [] := by
  induction l with
  | nil => rfl
  | cons p rest ih =>
    cases h : p.2.last_sources with
    | none => simpa [resetEntry, firstTruthySources, h] using ih
    | some s => simpa [resetEntry, firstTruthySources, h] using ih

/-- C8: immediately after `reset_sources()` the aggregated
`get_last_sources()` is empty, and every registered tool that exposes a
`last_sources` field has it cleared to the empty list. -/
theorem reset_sources_clears (m : ToolManager) :
    m.reset_sources.get_last_sources = [] ∧
    ∀ p ∈ m.reset_sources.tools, p.2.last_sources ≠ none →
      p.2.last_sources = some [] := by
  constructor
  · exact firstTruthySources_reset m.tools
  · intro p hp hne
    simp only [ToolManager.reset_sources, List.mem_map] at hp
    obtain ⟨q, _, rfl⟩ := hp
    cases h : q.2.last_sources with
    | none => simp [resetEntry, h] at hne
    | some s => simp [resetEntry, h]

/-- Witness for C8 on a registry whose tool holds a stale source record. -/
theorem reset_sources_clears_witness :
    tmS.reset_sources.get_last_sources = [] ∧ resetToolS.last_sources = some [] :=
  ⟨(reset_sources_clears tmS).1,
   (reset_sources_clears tmS).2 ("search_course_content", resetToolS)
     (List.mem_singleton.mpr rfl) (by simp [resetToolS])⟩

/-- C7: a tool whose declaration lacks a truthy name is rejected with the
registration error, and the registry is left unchanged. -/
theorem register_tool_no_name (m : ToolManager) (tool : MTool)
    (h : tool.tool_def.name = none ∨ tool.tool_def.name = some "") :
    (m.register_tool tool).2 = some "Tool must have a \x27name\x27 in its definition" ∧
    (m.register_tool tool).1 = m := by
  rcases h with h | h <;>
    simp [ToolManager.register_tool, h, optStrTruthy, String.isEmpty]

/-- Witness for C7: registering the declaration-less tool fails and keeps
the registry intact. -/
theorem register_tool_no_name_witness :
    (tmLive.register_tool noNameTool).2 =
      some "Tool must have a \x27name\x27 in its definition" ∧
    (tmLive.register_tool noNameTool).1 = tmLive :=
  register_tool_no_name tmLive noNameTool (Or.inl rfl)

/-- C10 (frame property of `CourseSearchTool.execute`): on the error branch
and on the empty-results branch `last_sources` is left unchanged; it is
overwritten — with the per-hit source records — only on the successful
formatting path. -/
theorem execute_sources_frame (t : CourseSearchTool) (q : String)
    (cn : Option String) (ln : Option Int) :
    (optStrTruthy (t.store.search q cn ln).error = true ∨
        (t.store.search q cn ln).is_empty = true →
      ((t.execute q cn ln).2).last_sources = t.last_sources) ∧
    (optStrTruthy (t.store.search q cn ln).error = false →
      (t.store.search q cn ln).is_empty = false →
      ((t.execute q cn ln).2).last_sources =
        ((t.store.search q cn ln).documents.zip
          (t.store.search q cn ln).metadata).map (fun p => sourceFor t.store p.2)) := by
  constructor
  · intro h
    unfold CourseSearchTool.execute
    rcases h with h | h
    · simp [h]
    · cases he : optStrTruthy (t.store.search q cn ln).error <;> simp [he, h]
  · intro he hn
    unfold CourseSearchTool.execute
    simp [he, hn, format_results_sources]

/-- Witness for C10: a failed-empty search keeps the previous sources, a
successful one overwrites them with the records of the new hits. -/
theorem execute_sources_frame_witness :
    ((csPrev.execute "q" none none).2).last_sources = [⟨"prev", none⟩] ∧
    ((csHits.execute "q" none none).2).last_sources =
      ((storeHits.search "q" none none).documents.zip
        (storeHits.search "q" none none).metadata).map
          (fun p => sourceFor storeHits p.2) :=
  ⟨(execute_sources_frame csPrev "q" none none).1 (Or.inr rfl),
   (execute_sources_frame csHits "q" none none).2 rfl rfl⟩

/-- C5 (amended): `CourseSearchTool.execute` returns the collaborator error
verbatim when the error field is truthy; on an empty result set it returns
the no-content message naming the course filter when the course name is
truthy and the lesson filter when the lesson number is truthy (nonzero); on
a nonempty result set it returns the hits formatted exactly as the
specification describes. -/
theorem course_search_execute_contract (t : CourseSearchTool) (q : String)
    (cn : Option String) (ln : Option Int) :
    (optStrTruthy (t.store.search q cn ln).error = true →
      (t.execute q cn ln).1 = (t.store.search q cn ln).error.getD "") ∧
    (optStrTruthy (t.store.search q cn ln).error = false →
      (t.store.search q cn ln).is_empty = true →
      (t.execute q cn ln).1 =
        "No relevant content found" ++
          (if optStrTruthy cn then " in course \x27" ++ cn.getD "" ++ "\x27" else "") ++
          (if optIntTruthy ln then " in lesson " ++ toString (ln.getD 0) else "") ++
          ".") ∧
    (optStrTruthy (t.store.search q cn ln).error = false →
      (t.store.search q cn ln).is_empty = false →
      (t.execute q cn ln).1 =
        specFormatHits (((t.store.search q cn ln).documents.zip
          (t.store.search q cn ln).metadata).map
            (fun p => (p.1, p.2.course_title.getD "unknown", p.2.lesson_number)))) := by
  refine ⟨?_, ?_, ?_⟩
  · intro h
    simp [CourseSearchTool.execute, h]
  · intro he hn
    simp [CourseSearchTool.execute, he, hn, String.append_assoc]
  · intro he hn
    simp [CourseSearchTool.execute, he, hn, format_results_text]

/-- Witness for C5 exercising all three branches at concrete stores. -/
theorem course_search_execute_contract_witness :
    (CourseSearchTool.execute ⟨storeErr, []⟩ "q" none none).1 = "boom" ∧
    (csEmpty.execute "q" (some "MCP") (some 2)).1 =
      "No relevant content found in course \x27MCP\x27 in lesson 2." ∧
    (csHits.execute "q" none none).1 =
      specFormatHits
        [("alpha text", "Course 1", some 1), ("beta text", "Course 1", none)] := by
  refine ⟨?_, ?_, ?_⟩
  · exact (course_search_execute_contract ⟨storeErr, []⟩ "q" none none).1 rfl
  · exact ((course_search_execute_contract csEmpty "q" (some "MCP") (some 2)).2.1
      rfl rfl).trans (by decide)
  · exact (course_search_execute_contract csHits "q" none none).2.2 rfl rfl

/-- Counterexample for C5 as stated: with an active lesson filter of `0`
and an empty result set, the returned message names no filter at all — the
truthiness test drops the lesson filter. -/
theorem course_search_lesson_zero_cex :
    (storeEmpty.search "q" none (some 0)).is_empty = true ∧
    (csEmpty.execute "q" none (some 0)).1 = "No relevant content found." ∧
    pyIn "lesson" (strLower (csEmpty.execute "q" none (some 0)).1) = false ∧
    pyIn "0" (csEmpty.execute "q" none (some 0)).1 = false := by
  refine ⟨rfl, by decide, by decide, by decide⟩

/-- A successful run of the tool-execution loop pairs the results with the
tool-use blocks: the ids come out equal and in the same order. -/
theorem collectToolResults_pairing (tm : ToolManager) (content : List ContentBlock)
    (results : List ToolResultBlock) (tm2 : ToolManager)
    (h : collectToolResults tm content = .ok (results, tm2)) :
    results.map (fun r => r.tool_use_id) = toolUseIds content := by
  induction content generalizing tm results tm2 with
  | nil =>
    simp only [collectToolResults, Except.ok.injEq, Prod.mk.injEq] at h
    simp [← h.1, toolUseIds]
  | cons b rest ih =>
    cases b with
    | text s =>
      simp only [collectToolResults] at h
      simpa [toolUseIds] using ih tm results tm2 h
    | tool_use i name input =>
      simp only [collectToolResults] at h
      cases he : tm.execute_tool name input with
      | mk r tmB =>
        rw [he] at h
        cases r with
        | error e => simp at h
        | ok s =>
          dsimp only at h
          cases hc : collectToolResults tmB rest with
          | error e => rw [hc] at h; simp at h
          | ok p =>
            obtain ⟨rs, tm3⟩ := p
            rw [hc] at h
            simp only [Except.ok.injEq, Prod.mk.injEq] at h
            obtain ⟨hr, -⟩ := h
            subst hr
            simpa [toolUseIds] using ih tmB rs tm3 hc

/-- C2: when the tool loop completes, the follow-up call of
`_handle_tool_execution` carries the original messages, then the verbatim
assistant response, then a single user message holding one tool result per
tool-use block, paired by id and in request order. -/
theorem handle_tool_execution_pairing (client : ApiParams → ModelResponse)
    (base : AIGenerator) (resp : ModelResponse) (bp : ApiParams) (tm : ToolManager)
    (results : List ToolResultBlock) (tm2 : ToolManager)
    (h : collectToolResults tm resp.content = .ok (results, tm2))
    (hk : toolUseIds resp.content ≠ []) :
    results.map (fun r => r.tool_use_id) = toolUseIds resp.content ∧
    results.length = (toolUseIds resp.content).length ∧
    handle_tool_execution client base resp bp tm =
      (firstBlockText (client
        ⟨base.model, 0, 800,
         bp.messages ++
           [⟨"assistant", .blocks resp.content⟩, ⟨"user", .toolResults results⟩],
         bp.system, none, none⟩),
       [⟨base.model, 0, 800,
         bp.messages ++
           [⟨"assistant", .blocks resp.content⟩, ⟨"user", .toolResults results⟩],
         bp.system, none, none⟩]) := by
  have hmap := collectToolResults_pairing tm resp.content results tm2 h
  have hlen : results.length = (toolUseIds resp.content).length := by
    rw [← hmap, List.length_map]
  have hne : results ≠ [] := by
    intro hnil
    rw [hnil] at hmap
    exact hk hmap.symm
  refine ⟨hmap, hlen, ?_⟩
  obtain ⟨r, rs, rfl⟩ := List.exists_cons_of_ne_nil hne
  simp [handle_tool_execution, h]

/-- Witness for C2: two tool calls and an interleaved text block produce
two paired results in one trailing user message. -/
theorem handle_tool_execution_pairing_witness :
    ([⟨"t1", "fine"⟩, ⟨"t2", "fine"⟩] : List ToolResultBlock).map
      (fun r => r.tool_use_id) = ["t1", "t2"] ∧
    ([⟨"t1", "fine"⟩, ⟨"t2", "fine"⟩] : List ToolResultBlock).length =
      (["t1", "t2"] : List String).length ∧
    handle_tool_execution clientEnd genLive respOkTwo apBase tmOk =
      (.ok "final answer",
       [⟨"claude", 0, 800,
         [⟨"user", .str "hi"⟩, ⟨"assistant", .blocks respOkTwo.content⟩,
          ⟨"user", .toolResults [⟨"t1", "fine"⟩, ⟨"t2", "fine"⟩]⟩],
         SYSTEM_PROMPT, none, none⟩]) :=
  handle_tool_execution_pairing clientEnd genLive respOkTwo apBase tmOk
    [⟨"t1", "fine"⟩, ⟨"t2", "fine"⟩] tmOk rfl (by decide)

/-- C1 (amended): an exception raised by `execute_tool` inside
`_handle_tool_execution` is not caught — it propagates out of the turn and
no follow-up model call is issued. -/
theorem handle_tool_execution_raise (client : ApiParams → ModelResponse)
    (base : AIGenerator) (resp : ModelResponse) (bp : ApiParams) (tm : ToolManager)
    (e : String) (h : collectToolResults tm resp.content = .error e) :
    handle_tool_execution client base resp bp tm = (.error e, []) := by
  simp [handle_tool_execution, h]

/-- Witness for C1: the second of two tool calls raises after the first
succeeded; the exception propagates and no model call is made. -/
theorem handle_tool_execution_raise_witness :
    handle_tool_execution clientEnd genLive respTwo apBase tmOkRaise =
      (.error "boom", []) :=
  handle_tool_execution_raise clientEnd genLive respTwo apBase tmOkRaise "boom" rfl

/-- Counterexample for C1 as stated: a raising tool call makes
`_handle_tool_execution` itself raise (first component) instead of
substituting an error-content result, and the follow-up model call is not
issued (no outbound request in the second component). -/
theorem handle_tool_execution_catch_cex :
    handle_tool_execution clientEnd genLive respToolUse apBase tmRaising =
      (.error "boom", []) := rfl

/-- The calls issued inside `_handle_tool_execution`: none when a tool
raises, otherwise exactly one, built without tools and without a tool
choice and with the system content of the first call. -/
theorem handle_tool_execution_calls (client : ApiParams → ModelResponse)
    (base : AIGenerator) (resp : ModelResponse) (bp : ApiParams) (tm : ToolManager) :
    (handle_tool_execution client base resp bp tm).2 = [] ∨
    ∃ fp : ApiParams, (handle_tool_execution client base resp bp tm).2 = [fp] ∧
      fp.tools = none ∧ fp.tool_choice = none ∧ fp.system = bp.system := by
  cases h : collectToolResults tm resp.content with
  | error e => left; simp [handle_tool_execution, h]
  | ok p =>
    right
    obtain ⟨results, tm2⟩ := p
    by_cases hp : results.isEmpty
    · exact ⟨⟨base.model, 0, 800,
        bp.messages ++ [⟨"assistant", .blocks resp.content⟩],
        bp.system, none, none⟩,
        by simp [handle_tool_execution, h, hp], rfl, rfl, rfl⟩
    · exact ⟨⟨base.model, 0, 800,
        bp.messages ++ [⟨"assistant", .blocks resp.content⟩,
          ⟨"user", .toolResults results⟩],
        bp.system, none, none⟩,
        by simp [handle_tool_execution, h, hp], rfl, rfl, rfl⟩

/-- C4: every run of `generate_response` issues at most two model calls,
and whenever two are issued the second carries no tool declarations and no
tool-choice policy and reuses the system content of the first unchanged. -/
theorem generate_response_two_calls (g : AIGenerator)
    (client : ApiParams → ModelResponse) (q : String) (hist : Option String)
    (tools : Option (List ToolDef)) (tm : Option ToolManager) :
    (generate_response g client q hist tools tm).2.length ≤ 2 ∧
    ∀ p1 p2, (generate_response g client q hist tools tm).2 = [p1, p2] →
      p2.tools = none ∧ p2.tool_choice = none ∧ p2.system = p1.system := by
  have hshape : (generate_response g client q hist tools tm).2 = [] ∨
      (∃ p, (generate_response g client q hist tools tm).2 = [p]) ∨
      (∃ p fp, (generate_response g client q hist tools tm).2 = [p, fp] ∧
        fp.tools = none ∧ fp.tool_choice = none ∧ fp.system = p.system) := by
    simp only [generate_response]
    split
    · left; rfl
    · split
      · rename_i tmv
        split
        · rcases handle_tool_execution_calls client g
            (client (build_api_params g q hist tools))
            (build_api_params g q hist tools) tmv with hc | ⟨fp, hc, h1, h2, h3⟩
          · right; left
            exact ⟨build_api_params g q hist tools, by rw [hc]⟩
          · right; right
            exact ⟨build_api_params g q hist tools, fp, by rw [hc], h1, h2, h3⟩
        · right; left; exact ⟨build_api_params g q hist tools, rfl⟩
      · right; left; exact ⟨build_api_params g q hist tools, rfl⟩
  constructor
  · rcases hshape with h | ⟨p, h⟩ | ⟨p, fp, h, -, -, -⟩ <;> simp [h]
  · intro p1 p2 hp
    rcases hshape with h | ⟨p, h⟩ | ⟨p, fp, h, h1, h2, h3⟩
    · rw [h] at hp; exact absurd hp (by simp)
    · rw [h] at hp; exact absurd hp (by simp)
    · rw [h] at hp
      simp only [List.cons.injEq, and_true] at hp
      obtain ⟨hp1, hp2⟩ := hp
      subst hp1
      subst hp2
      exact ⟨h1, h2, h3⟩

/-- Witness for C4: a first call that requests the search tool leads to the
two-call trace, whose second call has no tools, no tool choice, and the
same system content. -/
theorem generate_response_two_calls_witness :
    (generate_response genLive clientToolUse "hi" none
      (some [courseSearchToolDef]) (some tmLive)).2 = [c4p1, c4p2] ∧
    (c4p2.tools = none ∧ c4p2.tool_choice = none ∧ c4p2.system = c4p1.system) :=
  ⟨rfl,
   (generate_response_two_calls genLive clientToolUse "hi" none
     (some [courseSearchToolDef]) (some tmLive)).2 c4p1 c4p2 rfl⟩

/-- C3 (amended): outside mock mode, dispatching a registered tool through
`ToolManager.execute_tool` returns exactly what the tool itself returns
from `execute` (result string or raised exception alike). -/
theorem execute_tool_dispatch (m : ToolManager) (name : String) (tool : MTool)
    (kwargs : Kwargs) (h : dictLookup name m.tools = some tool)
    (hm : m.mock_mode = false) :
    (m.execute_tool name kwargs).1 = (tool.execute kwargs).map (fun r => r.1) := by
  simp only [ToolManager.execute_tool, h, hm, Bool.false_and, Bool.false_eq_true,
    if_false]
  cases he : tool.execute kwargs with
  | error e => rfl
  | ok r => rfl

/-- Witness for C3: in the live registry the dispatched result equals the
result of calling the course-search tool directly. -/
theorem execute_tool_dispatch_witness :
    (tmLive.execute_tool "search_course_content" kwargsHello).1 =
      (csMToolErr.execute kwargsHello).map (fun r => r.1) :=
  execute_tool_dispatch tmLive "search_course_content" csMToolErr kwargsHello
    rfl rfl

/-- Counterexample for C3 as stated: in mock mode the same registered tool
is dispatched to `execute_mock`, whose canned text differs from what
`execute` returns on the same arguments. -/
theorem execute_tool_dispatch_cex :
    (tmMock.execute_tool "search_course_content" kwargsHello).1 =
      .ok (mockSearchResultsText "hello") ∧
    (csMToolErr.execute kwargsHello).map (fun r => r.1) = .ok "boom" ∧
    mockSearchResultsText "hello" ≠ "boom" :=
  ⟨rfl, rfl, by decide⟩

/-- C6 (amended): executing an unregistered name never raises; it returns
the content-level not-found string except on the mock-mode
`search_courses` shortcut. -/
theorem execute_tool_unregistered (m : ToolManager) (name : String)
    (kwargs : Kwargs) (h : dictLookup name m.tools = none) :
    (∃ s, (m.execute_tool name kwargs).1 = .ok s) ∧
    (¬(m.mock_mode = true ∧ name = "search_courses") →
      (m.execute_tool name kwargs).1 =
        .ok ("Tool \x27" ++ name ++ "\x27 not found")) := by
  simp only [ToolManager.execute_tool, h]
  constructor
  · split
    · exact ⟨_, rfl⟩
    · exact ⟨_, rfl⟩
  · intro hn
    split
    · rename_i hc
      simp only [Bool.and_eq_true, decide_eq_true_eq] at hc
      exact absurd hc hn
    · rfl

/-- Witness for C6: an unknown name in the live registry yields the
not-found string. -/
theorem execute_tool_unregistered_witness :
    (∃ s, (tmLive.execute_tool "nope" kwargsNone).1 = .ok s) ∧
    (¬(tmLive.mock_mode = true ∧ "nope" = "search_courses") →
      (tmLive.execute_tool "nope" kwargsNone).1 =
        .ok ("Tool \x27" ++ "nope" ++ "\x27 not found")) :=
  execute_tool_unregistered tmLive "nope" kwargsNone rfl

/-- Counterexample for C6 as stated: in mock mode the unregistered name
`search_courses` yields a mock-search completion string, not a not-found
message. -/
theorem execute_tool_unregistered_cex :
    (tmMockEmpty.execute_tool "search_courses" kwargsNone).1 =
      .ok "Mock search completed for: general query" ∧
    pyIn "not found" "Mock search completed for: general query" = false :=
  ⟨rfl, by decide⟩

set_option maxRecDepth 100000 in
set_option maxHeartbeats 1000000 in
/-- C9: on the simulation path the MCP outline query returns the
product-specific outline with five lesson headings including Lesson 1 and
Lesson 5; the product-less outline query returns the generic module
outline; matching is case-insensitive and follows table order (an outline
query naming a lesson still hits the outline category first). -/
theorem mock_outline_selection :
    (generate_response genMock clientEnd "Give me the outline of the MCP course"
      none none none).1 = .ok mockOutlineMCP ∧
    countOcc "## Lesson" mockOutlineMCP = 5 ∧
    pyIn "Lesson 1" mockOutlineMCP = true ∧
    pyIn "Lesson 5" mockOutlineMCP = true ∧
    (generate_response genMock clientEnd "What\x27s the course outline?"
      none none none).1 = .ok mockOutlineDefault ∧
    mockOutlineDefault ≠ mockOutlineMCP ∧
    (generate_response genMock clientEnd "GIVE ME THE OUTLINE OF THE MCP COURSE"
      none none none).1 = .ok mockOutlineMCP ∧
    (generate_response genMock clientEnd "outline of lesson 2"
      none none none).1 = .ok mockOutlineDefault :=
  ⟨rfl, by decide, by decide, by decide, rfl, by decide, rfl, rfl⟩
